import Mathlib

/-!
Verification of the client-side job delivery coordinator of the chat store
(`useChatStore`): transcript mutation, the push (SSE) delivery callbacks, the
pull (polling) loops, streaming cancellation, and the associated invariants.

The store slice and every operation below are shallow embeddings of the
corresponding functions of the chat store source file.  JavaScript string
truthiness (empty string is falsy) is modelled by `jsTruthy`/`jsOr`.
-/

namespace ChatStore

/-- Role of a chat message. -/
inductive Role where
  | user
  | assistant
deriving DecidableEq, Repr

/-- A chat message: role, content, and the ISO timestamp string it was created with. -/
structure Message where
  role : Role
  content : String
  timestamp : String
deriving DecidableEq, Repr

/-- An agent as listed by the backend (`/meta/agents`). -/
structure Agent where
  id : String
  name : String
deriving DecidableEq, Repr

/-- A conversation held in the store. -/
structure Chat where
  id : String
  title : String
  provider : String
  model : String
  agent_id : Option String
  messages : List Message
deriving DecidableEq, Repr

/-- Job status values compared by the store (the source compares status strings). -/
inductive JobStatus where
  | queued
  | running
  | completed
  | failed
deriving DecidableEq, Repr

/-- The `currentJob` summary kept in the store. -/
structure JobResponse where
  job_id : String
  chat_id : String
  status : JobStatus
  error : Option String
deriving DecidableEq, Repr

/-- Payload of `result.result` carried by a terminal SSE frame. -/
structure SSEResult where
  result_message : Option String
  text : Option String
  message : Option String
  output_docx_path : Option String
  output_docx_url : Option String
deriving DecidableEq, Repr

/-- A terminal SSE frame as handed to the stream completion callback. -/
structure SSETerminal where
  status : JobStatus
  result : Option SSEResult
  error : Option String
deriving DecidableEq, Repr

/-- Response of `api.getJobStatus` (the pull channel's status endpoint). -/
structure JobStatusResponse where
  status : JobStatus
  result_message : Option String
  error : Option String
  output_docx_url : Option String
deriving DecidableEq, Repr

/-- Outcome of one status request on the pull channel: a response, or a
transient request error (the `catch` branch of the poll loops). -/
inductive PollResult where
  | ok (status : JobStatusResponse)
  | requestError
deriving DecidableEq, Repr

/-- The cleanup closures that the store saves in `streamingCleanup`:
closing a job's SSE connection, clearing the pending poll timeout, or the
normal-mode closure (which clears the interval and also resets
`loadingChatId`/`isStreaming`). -/
inductive Cleanup where
  | sseClose (jobId : String)
  | pollClear
  | normalMode
deriving DecidableEq, Repr

/-- JavaScript truthiness of an optional string: `undefined`/`null` and the
empty string are falsy. -/
def jsTruthy : Option String → Bool
  | none => false
  | some s => s != ""

/-- JavaScript `a || b` on an optional string with a string default. -/
def jsOr (a : Option String) (b : String) : String :=
  if jsTruthy a then a.getD "" else b

/-- Model of JavaScript `s.trim()`: strip leading and trailing whitespace
(written over the character list so that it is fully computable). -/
def jsTrim (s : String) : String :=
  String.mk (((s.data.dropWhile Char.isWhitespace).reverse.dropWhile Char.isWhitespace).reverse)

/-- Modelled from the spec: `generateChatTitle` lives in `lib/utils`, which is
not among the sources; §4.4 only says the first user message may derive the
conversation title (peripheral, not part of the core contract).  Modelled as
the message content itself. -/
def generateChatTitle (content : String) : String := content

/-- Modelled from the spec: the configured base URL used for artifact link
normalization (§6); the constant lives in `lib/api`, which is not among the
sources. -/
def API_BASE_URL : String := "http://localhost:8000"

/-- The slice of the store state that the coordinator logic reads and writes.
`cleanupsRun` counts how many times a stored cleanup closure has been invoked;
its only increment site is `stopStreaming`, mirroring the single
`streamingCleanup()` call site in the source. -/
structure State where
  chats : List Chat
  currentChatId : Option String
  agents : List Agent
  loadingChatId : Option String
  isLoading : Bool
  isStreaming : Bool
  currentJob : Option JobResponse
  streamingCleanup : Option Cleanup
  cleanupsRun : Nat
deriving DecidableEq, Repr

/-- Effect on the store of invoking a stored cleanup closure.  Closing an SSE
connection or clearing a timeout does not touch the store; the normal-mode
closure also resets `loadingChatId` and `isStreaming`. -/
def runCleanup : Cleanup → State → State
  | Cleanup.sseClose _, s => s
  | Cleanup.pollClear, s => s
  | Cleanup.normalMode, s => { s with loadingChatId := none, isStreaming := false }

/-- `stopStreaming`: if a cleanup is registered, invoke it and clear
`streamingCleanup`, `isStreaming`, `loadingChatId` and `currentJob`;
otherwise do nothing.  (`isLoading` is not written by this action.) -/
def stopStreaming (s : State) : State :=
  match s.streamingCleanup with
  | none => s
  | some c =>
      let s1 := runCleanup c s
      { s1 with
          streamingCleanup := none,
          isStreaming := false,
          loadingChatId := none,
          currentJob := none,
          cleanupsRun := s1.cleanupsRun + 1 }

/-- Per-chat update performed by `addMessage`: append the message to the
matching chat and, if this is the first message and a user message, derive the
title. -/
def addChat (chatId : String) (message : Message) (chat : Chat) : Chat :=
  if chat.id = chatId then
    { chat with
        messages := chat.messages ++ [message],
        title :=
          if chat.messages.length = 0 ∧ message.role = Role.user then
            generateChatTitle message.content
          else chat.title }
  else chat

/-- `addMessage(chatId, message)`: map over the chat list, appending to the
matching chat. -/
def addMessage (s : State) (chatId : String) (message : Message) : State :=
  { s with chats := s.chats.map (addChat chatId message) }

/-- Overwrite the content of the last element of a message list (the
`messages[messages.length - 1] = { ...last, content }` assignment). -/
def setLastContent (msgs : List Message) (content : String) : List Message :=
  match msgs.getLast? with
  | none => msgs
  | some last => msgs.dropLast ++ [{ last with content := content }]

/-- Per-chat update performed by `updateLastMessage`: overwrite the last
message's content when the chat matches and has at least one message. -/
def updChat (chatId : String) (content : String) (chat : Chat) : Chat :=
  if chat.id = chatId ∧ 0 < chat.messages.length then
    { chat with messages := setLastContent chat.messages content }
  else chat

/-- `updateLastMessage(chatId, content)`: map over the chat list, overwriting
the last message of the matching chat.  Note there is no role check here. -/
def updateLastMessage (s : State) (chatId : String) (content : String) : State :=
  { s with chats := s.chats.map (updChat chatId content) }

/-- The last message of the chat with the given id, if any
(`chats.find(c => c.id === chatId)?.messages[length - 1]`). -/
def lastMessageOf (s : State) (chatId : String) : Option Message :=
  match s.chats.find? (fun c => c.id == chatId) with
  | some chat => chat.messages.getLast?
  | none => none

/-- The `lastMsg?.role === 'assistant'` test that gates replace-vs-append in
the delivery callbacks. -/
def lastMsgIsAssistant (s : State) (chatId : String) : Bool :=
  match lastMessageOf s chatId with
  | some m => m.role == Role.assistant
  | none => false

/-- The agent display-name derivation shared by the delivery paths:
`agentId || undefined`, then `agents.find`, then the truthy-name fallbacks. -/
def agentNameFor (agents : List Agent) (agentId : Option String) : String :=
  let aid := if jsTruthy agentId then agentId else none
  match aid with
  | some a =>
      match agents.find? (fun ag => ag.id == a) with
      | some ag => if ag.name ≠ "" then ag.name else a
      | none => a
  | none => "agent"

/-- The download-affordance line appended for a generated DOCX artifact. -/
def docxSuffix (agentName : String) (docxUrl : String) : String :=
  "\n\n📄 [Download Technical Specification Document (" ++ agentName ++ ")](" ++ docxUrl ++ ")"

/-- Artifact link normalization: keep absolute URLs, prefix relative ones with
the configured base. -/
def normalizeDocxUrl (u : String) : String :=
  if u.startsWith "http" then u else API_BASE_URL ++ u

/-- The terminal-message text chosen by the SSE completion callback:
`result.result_message || result.text || result.message || result.result`
(the last fallback is the JS string coercion of the result object). -/
def finalMessageOf (r : SSEResult) : String :=
  jsOr r.result_message (jsOr r.text (jsOr r.message "[object Object]"))

/-- The SSE `data` callback installed by `sendMessage` in agent mode.
`fullResponse` is the closure-captured accumulator; the callback appends the
fragment plus a newline, writes the accumulated text to the transcript
(replacing the last message when it is an assistant message, appending a new
assistant message otherwise), and keeps `currentJob` in `running`.  Returns the
updated accumulator together with the store state. -/
def sseData (chatId now fullResponse data : String) (s : State) : String × State :=
  let fullResponse := fullResponse ++ data ++ "\n"
  let s :=
    if jsTrim fullResponse ≠ "" then
      if lastMsgIsAssistant s chatId then
        updateLastMessage s chatId fullResponse
      else
        addMessage s chatId { role := Role.assistant, content := fullResponse, timestamp := now }
    else s
  let s := { s with currentJob := s.currentJob.map (fun (j : JobResponse) => { j with status := JobStatus.running }) }
  (fullResponse, s)

/-- The SSE terminal-frame callback installed by `sendMessage` in agent mode:
clear the stored cleanup, apply the final content (completed) or the error
message (failed) by replace-or-append on the last message, and finally clear
`loadingChatId`/`isLoading`/`isStreaming`.  The deferred
`setTimeout(... currentJob := null, 3000)` is a separately scheduled event and
not part of this immediate transition. -/
def sseTerminal (chatId jobId agentName now : String) (result : SSETerminal) (s : State) : State :=
  let s := { s with streamingCleanup := none }
  let s :=
    match result.status, result.result with
    | JobStatus.completed, some r =>
        let s := { s with currentJob := s.currentJob.map (fun (j : JobResponse) => { j with status := JobStatus.completed }) }
        let finalMessage := finalMessageOf r
        let finalMessage :=
          if jsTruthy r.output_docx_path || jsTruthy r.output_docx_url then
            let docxUrl :=
              if jsTruthy r.output_docx_url then normalizeDocxUrl (r.output_docx_url.getD "")
              else API_BASE_URL ++ "/jobs/" ++ jobId ++ "/docx"
            finalMessage ++ docxSuffix agentName docxUrl
          else finalMessage
        if lastMsgIsAssistant s chatId then
          updateLastMessage s chatId finalMessage
        else
          addMessage s chatId { role := Role.assistant, content := finalMessage, timestamp := now }
    | JobStatus.failed, _ =>
        let s := { s with currentJob := s.currentJob.map (fun (j : JobResponse) => { j with status := JobStatus.failed, error := result.error }) }
        let errorMsg := "❌ Error: " ++ jsOr result.error "Job failed"
        if lastMsgIsAssistant s chatId then
          updateLastMessage s chatId errorMsg
        else
          addMessage s chatId { role := Role.assistant, content := errorMsg, timestamp := now }
    | _, _ => s
  { s with loadingChatId := none, isLoading := false, isStreaming := false }

/-- Store effect of the SSE error callback of `sendMessage`'s agent path,
taken before the polling fallback starts: it only clears the stored cleanup
(the underlying connection is not closed here). -/
def sseError (s : State) : State := { s with streamingCleanup := none }

/-- The four-field reset used by every terminal branch of `pollJobStatus`. -/
def clearJobFlags (s : State) : State :=
  { s with loadingChatId := none, isLoading := false, isStreaming := false, currentJob := none }

/-- `maxAttempts` of `pollJobStatus`: 24 hours of one-second ticks. -/
def maxAttempts : Nat := 86400

/-- The `poll` loop of `pollJobStatus`, the polling fallback defined inside
`sendMessage`, driven by the list of successive status-request outcomes (an
empty list means the loop is still awaiting its next response).  A request
error clears the flags and stops; a terminal status appends one assistant
message and clears the flags; a non-terminal status increments `attempts` and
either reschedules or, at the ceiling, appends the timeout error message. -/
def pollLoop (chatId agentName now : String) : Nat → List PollResult → State → State
  | _, [], s => s
  | _, PollResult.requestError :: _, s => clearJobFlags s
  | attempts, PollResult.ok st :: rest, s =>
    match st.status with
    | JobStatus.completed =>
        let finalMessage := jsOr st.result_message "Completed"
        let finalMessage :=
          if jsTruthy st.output_docx_url then
            finalMessage ++ docxSuffix agentName (normalizeDocxUrl (st.output_docx_url.getD ""))
          else finalMessage
        clearJobFlags (addMessage s chatId
          { role := Role.assistant, content := finalMessage, timestamp := now })
    | JobStatus.failed =>
        clearJobFlags (addMessage s chatId
          { role := Role.assistant, content := "❌ Error: " ++ jsOr st.error "Job failed", timestamp := now })
    | _ =>
        let attempts := attempts + 1
        if attempts < maxAttempts then
          pollLoop chatId agentName now attempts rest s
        else
          clearJobFlags (addMessage s chatId
            { role := Role.assistant, content := "❌ Error: Request timed out", timestamp := now })

/-- The initial `set` of `startJobPolling` (the restart/visibility polling
path). -/
def startJobPollingInit (chatId : String) (s : State) : State :=
  { s with loadingChatId := some chatId, isLoading := true }

/-- The `poll` loop of `startJobPolling`.  Unlike `pollJobStatus`, this loop
keeps no attempt counter: a non-terminal status updates `currentJob` and
unconditionally reschedules.  The completed branch returns without touching the
state when the chat is not found (`if (!chat) return`). -/
def startPollLoop (chatId jobId now : String) : List PollResult → State → State
  | [], s => s
  | PollResult.requestError :: _, s =>
      { s with loadingChatId := none, isLoading := false, isStreaming := false,
               currentJob := none, streamingCleanup := none }
  | PollResult.ok st :: rest, s =>
    match st.status with
    | JobStatus.completed =>
        match s.chats.find? (fun c => c.id == chatId) with
        | none => s
        | some chat =>
            let agentName := agentNameFor s.agents chat.agent_id
            let finalMessage := jsOr st.result_message "Completed"
            let finalMessage :=
              if jsTruthy st.output_docx_url then
                finalMessage ++ docxSuffix agentName (normalizeDocxUrl (st.output_docx_url.getD ""))
              else finalMessage
            { s with
                chats := s.chats.map (fun c =>
                  if c.id = chatId then
                    { c with messages := c.messages ++
                        [{ role := Role.assistant, content := finalMessage, timestamp := now }] }
                  else c),
                loadingChatId := none, isLoading := false, isStreaming := false,
                currentJob := none, streamingCleanup := none }
    | JobStatus.failed =>
        { s with
            chats := s.chats.map (fun c =>
              if c.id = chatId then
                { c with messages := c.messages ++
                    [{ role := Role.assistant,
                       content := "❌ Error: " ++ jsOr st.error "Job failed",
                       timestamp := now }] }
              else c),
            loadingChatId := none, isLoading := false, isStreaming := false,
            currentJob := none, streamingCleanup := none }
    | _ =>
        let j : JobResponse :=
          { job_id := jobId, chat_id := chatId, status := st.status, error := st.error }
        let s := { s with currentJob := some j }
        startPollLoop chatId jobId now rest s

/-- Store-state effects of `sendMessage`'s agent-mode path up to installing the
new SSE subscription's cleanup, for an existing agent chat (the chat-creation
branches are not taken): append the user message, raise the loading/streaming
flags, record the job as queued then running, and store the new cleanup.  Note
that a previously stored `streamingCleanup` is overwritten without being
invoked. -/
def sendMessageAgentSubmit (chatId content now : String) (job : JobResponse)
    (newCleanup : Cleanup) (s : State) : State :=
  let s := addMessage s chatId { role := Role.user, content := content, timestamp := now }
  let s := { s with loadingChatId := some chatId, isLoading := true, isStreaming := true }
  let s := { s with currentJob := some ({ job with status := JobStatus.queued }) }
  let s := { s with currentJob := some ({ job with status := JobStatus.running }) }
  { s with streamingCleanup := some newCleanup }

/-! Concrete fixtures used by the scenario evaluations below. -/

/-- A user message opening the example conversation. -/
def exMsgU : Message := { role := Role.user, content := "Hi", timestamp := "t0" }

/-- The example agent conversation `c1`, holding only the user message. -/
def exChat : Chat :=
  { id := "c1", title := "T", provider := "p", model := "m",
    agent_id := some "a1", messages := [exMsgU] }

/-- The active job `j1` of the example conversation. -/
def exJob : JobResponse :=
  { job_id := "j1", chat_id := "c1", status := JobStatus.running, error := none }

/-- A mid-flight agent-mode store state: job `j1` streaming on chat `c1`,
loading and streaming flags raised, the SSE cleanup registered. -/
def exState : State :=
  { chats := [exChat], currentChatId := some "c1", agents := [],
    loadingChatId := some "c1", isLoading := true, isStreaming := true,
    currentJob := some exJob, streamingCleanup := some (Cleanup.sseClose "j1"),
    cleanupsRun := 0 }

/-- A `running` status response from the pull channel. -/
def exRunningStatus : JobStatusResponse :=
  { status := JobStatus.running, result_message := none, error := none,
    output_docx_url := none }

/-- The store state after the push channel for `j1` failed (error callback) and
the polling fallback then received a `completed` status carrying the result
message `"done"`: one terminal assistant message has been appended and the job
flags are cleared. -/
def pState : State :=
  pollLoop "c1" "agent" "t2" 0
    [PollResult.ok
      { status := JobStatus.completed, result_message := some "done",
        error := none, output_docx_url := none }]
    (sseError exState)

/-- A late terminal SSE frame for job `j1`, carrying the result text
`"done!"`, delivered after the poll already applied `j1`'s terminal state. -/
def lateTerminalFrame : SSETerminal :=
  { status := JobStatus.completed,
    result := some
      { result_message := some "done!", text := none, message := none,
        output_docx_path := none, output_docx_url := none },
    error := none }


/-- A mid-flight state identical to `exState` except that no cleanup closure is
registered. -/
def exNoCleanupState : State := { exState with streamingCleanup := none }

/-- An empty example conversation. -/
def exEmptyChat : Chat :=
  { id := "c9", title := "E", provider := "p", model := "m", agent_id := none, messages := [] }

/-- `setLastContent` on a list ending in `m` rewrites exactly that last
element's content. -/
theorem setLastContent_concat (ms : List Message) (m : Message) (c : String) :
    setLastContent (ms ++ [m]) c = ms ++ [{ m with content := c }] := by
  simp [setLastContent, List.getLast?_concat, List.dropLast_concat]

/-- `setLastContent` never changes the number of messages. -/
theorem setLastContent_length (msgs : List Message) (c : String) :
    (setLastContent msgs c).length = msgs.length := by
  rcases List.eq_nil_or_concat msgs with rfl | ⟨ms, m, rfl⟩
  · rfl
  · simp [setLastContent_concat]

/-- Mapping a function that fixes every element of a list is the identity. -/
theorem map_fix {α : Type} (f : α → α) :
    ∀ (l : List α), (∀ a ∈ l, f a = a) → l.map f = l := by
  intro l
  induction l with
  | nil => intro _; rfl
  | cons x xs ih =>
      intro h
      simp only [List.map_cons]
      rw [h x (by simp), ih (fun a ha => h a (by simp [ha]))]

/-- C10: when no streaming cleanup closure is registered, `stopStreaming`
leaves the whole store state unchanged, even when the flags indicate an
in-flight job. -/
theorem stopStreaming_noCleanup_id (s : State) (h : s.streamingCleanup = none) :
    stopStreaming s = s := by
  simp [stopStreaming, h]

/-- Witness for C10 at a state whose flags indicate an in-flight job. -/
theorem stopStreaming_noCleanup_id_witness :
    exNoCleanupState.streamingCleanup = none ∧
    exNoCleanupState.isLoading = true ∧ exNoCleanupState.isStreaming = true ∧
    stopStreaming exNoCleanupState = exNoCleanupState :=
  ⟨rfl, rfl, rfl, stopStreaming_noCleanup_id exNoCleanupState rfl⟩

/-- C4: evaluating `stopStreaming` at the mid-flight agent-mode state
`exState`: the transcript is untouched and `isStreaming`, `loadingChatId`,
`currentJob` are cleared, but `isLoading` remains `true` — the source's
`stopStreaming` never writes `isLoading`, contradicting the claim that the
loading flag is cleared. -/
theorem stopStreaming_keeps_isLoading :
    (stopStreaming exState).isLoading = true ∧
    (stopStreaming exState).chats = exState.chats ∧
    (stopStreaming exState).isStreaming = false ∧
    (stopStreaming exState).loadingChatId = none ∧
    (stopStreaming exState).currentJob = none := by decide

/-- C5 counterexample: the most recent message of chat `c1` is a user message,
yet `updateLastMessage` overwrites its content — the source operation has no
role check, so the list does not stay unchanged as claimed. -/
theorem updateLastMessage_overwrites_user_message :
    lastMessageOf exState "c1" = some exMsgU ∧
    exMsgU.role ≠ Role.assistant ∧
    (updateLastMessage exState "c1" "x").chats ≠ exState.chats ∧
    lastMessageOf (updateLastMessage exState "c1" "x") "c1" =
      some { exMsgU with content := "x" } := by decide

/-- C5 amended: `updateLastMessage` overwrites the content of the most recent
message of the matching non-empty chat regardless of that message's role; it
never creates a message (message counts are preserved), and a chat that does
not match or has no messages is left unchanged. -/
theorem updateLastMessage_spec :
    (∀ s chatId content,
        (updateLastMessage s chatId content).chats = s.chats.map (updChat chatId content)) ∧
    (∀ chatId content chat, (updChat chatId content chat).messages.length = chat.messages.length) ∧
    (∀ chatId content chat, chat.messages = [] → updChat chatId content chat = chat) ∧
    (∀ chatId content chat, chat.id ≠ chatId → updChat chatId content chat = chat) ∧
    (∀ chatId content chat ms m, chat.id = chatId → chat.messages = ms ++ [m] →
        (updChat chatId content chat).messages = ms ++ [{ m with content := content }]) := by
  refine ⟨fun _ _ _ => rfl, ?_, ?_, ?_, ?_⟩
  · intro chatId content chat
    unfold updChat
    split
    · simp [setLastContent_length]
    · rfl
  · intro chatId content chat h
    simp [updChat, h]
  · intro chatId content chat h
    simp [updChat, h]
  · intro chatId content chat ms m hid hmsgs
    simp [updChat, hid, hmsgs, setLastContent_concat]

/-- Witness for the amended C5 at concrete chats. -/
theorem updateLastMessage_spec_witness :
    updChat "c1" "x" exEmptyChat = exEmptyChat ∧
    updChat "zz" "x" exChat = exChat ∧
    (updChat "c1" "x" exChat).messages = [] ++ [{ exMsgU with content := "x" }] :=
  ⟨updateLastMessage_spec.2.2.1 "c1" "x" exEmptyChat rfl,
   updateLastMessage_spec.2.2.2.1 "zz" "x" exChat (by decide),
   updateLastMessage_spec.2.2.2.2 "c1" "x" exChat [] exMsgU rfl rfl⟩

/-- C9: `addMessage` and `updateLastMessage` are pure list-to-list
transformations — they build a new chat list with `List.map` and the
pre-mutation value is untouched; every chat whose id differs from the target is
mapped to itself, and for an unknown chat id the whole chat list is
unchanged. -/
theorem mutation_frame :
    (∀ chatId m chat, chat.id ≠ chatId → addChat chatId m chat = chat) ∧
    (∀ chatId c chat, chat.id ≠ chatId → updChat chatId c chat = chat) ∧
    (∀ s chatId m, (addMessage s chatId m).chats = s.chats.map (addChat chatId m)) ∧
    (∀ s chatId c, (updateLastMessage s chatId c).chats = s.chats.map (updChat chatId c)) ∧
    (∀ s chatId m, (∀ chat ∈ s.chats, chat.id ≠ chatId) →
        (addMessage s chatId m).chats = s.chats) ∧
    (∀ s chatId c, (∀ chat ∈ s.chats, chat.id ≠ chatId) →
        (updateLastMessage s chatId c).chats = s.chats) := by
  have hadd : ∀ chatId m chat, chat.id ≠ chatId → addChat chatId m chat = chat := by
    intro chatId m chat h; simp [addChat, h]
  have hupd : ∀ chatId c chat, chat.id ≠ chatId → updChat chatId c chat = chat := by
    intro chatId c chat h; simp [updChat, h]
  refine ⟨hadd, hupd, fun _ _ _ => rfl, fun _ _ _ => rfl, ?_, ?_⟩
  · intro s chatId m h
    exact map_fix _ s.chats (fun a ha => hadd chatId m a (h a ha))
  · intro s chatId c h
    exact map_fix _ s.chats (fun a ha => hupd chatId c a (h a ha))

/-- Witness for C9 at concrete inputs with a non-matching chat id. -/
theorem mutation_frame_witness :
    addChat "c2" exMsgU exChat = exChat ∧
    updChat "c2" "x" exChat = exChat ∧
    (addMessage exState "c2" exMsgU).chats = exState.chats :=
  ⟨mutation_frame.1 "c2" exMsgU exChat (by decide),
   mutation_frame.2.1 "c2" "x" exChat (by decide),
   mutation_frame.2.2.2.2.1 exState "c2" exMsgU (by decide)⟩


/-- A non-terminal (queued/running) successful status-request outcome. -/
def nonTerminalOk (r : PollResult) : Prop :=
  ∃ st, r = PollResult.ok st ∧
    (st.status = JobStatus.queued ∨ st.status = JobStatus.running)

/-- The state produced when `pollJobStatus` reaches its attempt ceiling: one
timeout error message appended, the four job flags cleared. -/
def timeoutState (chatId now : String) (s : State) : State :=
  clearJobFlags (addMessage s chatId
    { role := Role.assistant, content := "❌ Error: Request timed out", timestamp := now })

/-- One non-terminal step of the `pollJobStatus` loop: bump the attempt counter
and either poll again or, at the ceiling, time out. -/
theorem pollLoop_nonterminal_step (chatId agentName now : String) (attempts : Nat)
    (st : JobStatusResponse) (rest : List PollResult) (s : State)
    (h : st.status = JobStatus.queued ∨ st.status = JobStatus.running) :
    pollLoop chatId agentName now attempts (PollResult.ok st :: rest) s =
      if attempts + 1 < maxAttempts then pollLoop chatId agentName now (attempts + 1) rest s
      else timeoutState chatId now s := by
  rcases h with h | h <;> simp [pollLoop, h, timeoutState]

/-- Whenever fewer than `maxAttempts` attempts remain available and every
response is non-terminal, the `pollJobStatus` loop ends in the timeout state. -/
theorem pollLoop_timeout_aux (chatId agentName now : String) (s : State) :
    ∀ (rs : List PollResult) (attempts : Nat), attempts < maxAttempts →
      maxAttempts ≤ attempts + rs.length → (∀ r ∈ rs, nonTerminalOk r) →
      pollLoop chatId agentName now attempts rs s = timeoutState chatId now s := by
  intro rs
  induction rs with
  | nil =>
      intro attempts h1 h2 _
      simp only [List.length_nil] at h2
      omega
  | cons r rest ih =>
      intro attempts h1 h2 hall
      obtain ⟨st, rfl, hst⟩ := hall r (by simp)
      rw [pollLoop_nonterminal_step chatId agentName now attempts st rest s hst]
      by_cases hlt : attempts + 1 < maxAttempts
      · rw [if_pos hlt]
        refine ih (attempts + 1) hlt ?_ (fun x hx => hall x (by simp [hx]))
        simp only [List.length_cons] at h2
        omega
      · rw [if_neg hlt]

/-- The `startJobPolling` loop on a run of non-terminal responses: nothing is
appended and no flag changes, no matter how long the run is. -/
theorem startPollLoop_nonterminal (chatId jobId now : String) :
    ∀ (rs : List PollResult), (∀ r ∈ rs, nonTerminalOk r) → ∀ s,
      (startPollLoop chatId jobId now rs s).chats = s.chats ∧
      (startPollLoop chatId jobId now rs s).isLoading = s.isLoading ∧
      (startPollLoop chatId jobId now rs s).isStreaming = s.isStreaming ∧
      (startPollLoop chatId jobId now rs s).loadingChatId = s.loadingChatId := by
  intro rs
  induction rs with
  | nil => intro _ s; exact ⟨rfl, rfl, rfl, rfl⟩
  | cons r rest ih =>
      intro hall s
      obtain ⟨st, rfl, hst⟩ := hall r (by simp)
      have step : startPollLoop chatId jobId now (PollResult.ok st :: rest) s =
          startPollLoop chatId jobId now rest
            { s with currentJob := some (JobResponse.mk jobId chatId st.status st.error) } := by
        rcases hst with h | h <;> simp [startPollLoop, h]
      rw [step]
      simpa using ih (fun x hx => hall x (by simp [hx]))
        { s with currentJob := some (JobResponse.mk jobId chatId st.status st.error) }

/-- C7 (amended): the polling fallback defined inside `sendMessage`
(`pollJobStatus`) stops after at most `maxAttempts` (86,400) non-terminal
polls, appending exactly one timeout error message and clearing the job flags;
the `startJobPolling` poll loop, by contrast, has no attempt ceiling: a run of
non-terminal responses, however long, appends nothing and keeps the
loading/streaming flags untouched while it keeps rescheduling. -/
theorem pollLoop_ceiling_and_startPollLoop_unbounded :
    (∀ chatId agentName now s rs, (∀ r ∈ rs, nonTerminalOk r) → maxAttempts ≤ rs.length →
        pollLoop chatId agentName now 0 rs s = timeoutState chatId now s) ∧
    (∀ chatId jobId now rs, (∀ r ∈ rs, nonTerminalOk r) → ∀ s,
        (startPollLoop chatId jobId now rs s).chats = s.chats ∧
        (startPollLoop chatId jobId now rs s).isLoading = s.isLoading) := by
  constructor
  · intro chatId agentName now s rs hall hlen
    exact pollLoop_timeout_aux chatId agentName now s rs 0 (by decide) (by omega) hall
  · intro chatId jobId now rs hall s
    exact ⟨(startPollLoop_nonterminal chatId jobId now rs hall s).1,
           (startPollLoop_nonterminal chatId jobId now rs hall s).2.1⟩

/-- Witness for the amended C7: a full-length run of `running` responses makes
`pollJobStatus` time out, while a `startJobPolling` run stays untouched. -/
theorem pollLoop_ceiling_witness :
    pollLoop "c1" "agent" "t9" 0
        (List.replicate maxAttempts (PollResult.ok exRunningStatus)) exState
      = timeoutState "c1" "t9" exState ∧
    (startPollLoop "c1" "j1" "t9" [PollResult.ok exRunningStatus] exState).chats
      = exState.chats :=
  ⟨pollLoop_ceiling_and_startPollLoop_unbounded.1 "c1" "agent" "t9" exState _
      (fun r hr => ⟨exRunningStatus, List.eq_of_mem_replicate hr, Or.inr rfl⟩)
      (by simp),
   (pollLoop_ceiling_and_startPollLoop_unbounded.2 "c1" "j1" "t9"
      [PollResult.ok exRunningStatus]
      (fun r hr => ⟨exRunningStatus, by simpa using hr, Or.inr rfl⟩) exState).1⟩

/-- C7 counterexample: after 86,401 consecutive `running` responses the
`startJobPolling` poll loop has appended no timeout message and is still
loading — this pull-channel loop has no attempt ceiling, so the claim that
every pull-channel run stops at the 86,400-tick ceiling with one timeout
message is false. -/
theorem startJobPolling_no_ceiling :
    (startPollLoop "c1" "j1" "t9"
        (List.replicate (maxAttempts + 1) (PollResult.ok exRunningStatus))
        (startJobPollingInit "c1" exState)).chats = exState.chats ∧
    (startPollLoop "c1" "j1" "t9"
        (List.replicate (maxAttempts + 1) (PollResult.ok exRunningStatus))
        (startJobPollingInit "c1" exState)).isLoading = true := by
  have h := startPollLoop_nonterminal "c1" "j1" "t9"
    (List.replicate (maxAttempts + 1) (PollResult.ok exRunningStatus))
    (fun r hr => ⟨exRunningStatus, List.eq_of_mem_replicate hr, Or.inr rfl⟩)
    (startJobPollingInit "c1" exState)
  exact ⟨h.1, h.2.1⟩

/-- C8 counterexample: a transient request error on the first poll leaves the
transcript exactly unchanged — no error message is surfaced to the
conversation, contradicting the claim. -/
theorem pollLoop_requestError_silent :
    (pollLoop "c1" "agent" "t9" 0 [PollResult.requestError] exState).chats = exState.chats ∧
    exState.chats = [exChat] ∧ exChat.messages = [exMsgU] :=
  ⟨rfl, rfl, rfl⟩

/-- C8 (amended): a transient request error makes both poll loops stop (the
remaining responses are never consumed) and clear the job flags, but neither
surfaces an error message: the transcript is left unchanged.  (The
`startJobPolling` catch additionally clears the stored cleanup.) -/
theorem pollLoop_requestError_stops (chatId agentName jobId now : String) (attempts : Nat)
    (rest rest2 : List PollResult) (s : State) :
    pollLoop chatId agentName now attempts (PollResult.requestError :: rest) s
      = clearJobFlags s ∧
    (pollLoop chatId agentName now attempts (PollResult.requestError :: rest) s).chats
      = s.chats ∧
    (startPollLoop chatId jobId now (PollResult.requestError :: rest2) s).chats = s.chats ∧
    (startPollLoop chatId jobId now (PollResult.requestError :: rest2) s).isLoading = false ∧
    (startPollLoop chatId jobId now (PollResult.requestError :: rest2) s).isStreaming = false ∧
    (startPollLoop chatId jobId now (PollResult.requestError :: rest2) s).currentJob = none :=
  ⟨rfl, rfl, rfl, rfl, rfl, rfl⟩


/-- Scenario A: the first push fragment `"Hello"` applied to the mid-flight
state (returns the updated accumulator and state). -/
def scenA1 : String × State := sseData "c1" "t1" "" "Hello" exState

/-- Scenario A: the second push fragment `" world"`. -/
def scenA2 : String × State := sseData "c1" "t2" scenA1.1 " world" scenA1.2

/-- Scenario A: the terminal completed frame carrying the result text
`"Hello world!!"`. -/
def scenATerminalFrame : SSETerminal :=
  { status := JobStatus.completed,
    result := some
      { result_message := none, text := some "Hello world!!", message := none,
        output_docx_path := none, output_docx_url := none },
    error := none }

/-- Scenario A: the state after the terminal frame. -/
def scenA3 : State := sseTerminal "c1" "j1" "agent" "t3" scenATerminalFrame scenA2.2

/-- C6 counterexample: after the first fragment the last message's content is
`"Hello\n"`, not `"Hello"` — the SSE data callback appends a newline to every
fragment (`fullResponse += data + '\n'`). -/
theorem scenarioA_fragment_newline :
    (lastMessageOf scenA1.2 "c1").map Message.content = some "Hello\n" ∧
    some "Hello\n" ≠ some ("Hello" : String) := by decide

/-- C6 (amended): with the newline the data callback appends to each fragment,
the last message's content is `"Hello\n"` after the first fragment and
`"Hello\n world\n"` after the second; the terminal completed frame with result
text `"Hello world!!"` makes it exactly `"Hello world!!"`, clears the streaming
flag, and the conversation ends with the user message plus the single
assistant message. -/
theorem scenarioA_amended :
    (lastMessageOf scenA1.2 "c1").map Message.content = some "Hello\n" ∧
    (lastMessageOf scenA2.2 "c1").map Message.content = some "Hello\n world\n" ∧
    (lastMessageOf scenA3 "c1").map Message.content = some "Hello world!!" ∧
    scenA3.isStreaming = false ∧
    (scenA3.chats.map fun c => c.messages.length) = [2] := by decide

/-- Chat `c1` mid-job `j3`: the user message and a partial assistant reply. -/
def exChatJ3 : Chat :=
  { id := "c1", title := "T", provider := "p", model := "m", agent_id := some "a1",
    messages :=
      [ { role := Role.user, content := "m1", timestamp := "t0" },
        { role := Role.assistant, content := "part", timestamp := "t1" } ] }

/-- The running job `j3`. -/
def exJob3 : JobResponse :=
  { job_id := "j3", chat_id := "c1", status := JobStatus.running, error := none }

/-- The response of `api.createJob` for the superseding job `j4`. -/
def exJob4 : JobResponse :=
  { job_id := "j4", chat_id := "c1", status := JobStatus.queued, error := none }

/-- Mid-flight state of job `j3` on chat `c1`, its SSE cleanup registered. -/
def exStateJ3 : State :=
  { chats := [exChatJ3], currentChatId := some "c1", agents := [],
    loadingChatId := some "c1", isLoading := true, isStreaming := true,
    currentJob := some exJob3, streamingCleanup := some (Cleanup.sseClose "j3"),
    cleanupsRun := 0 }

/-- The state after submitting job `j4` on `c1` while `j3` is still mid-flight. -/
def submitJ4 : State :=
  sendMessageAgentSubmit "c1" "q4" "t2" exJob4 (Cleanup.sseClose "j4") exStateJ3

/-- C3: `sendMessage` never invokes the previously stored cleanup — for every
input it merely overwrites `streamingCleanup` and leaves the invocation count
unchanged — and concretely, after submitting `j4` over the still-open `j3`
subscription, `j3`'s still-registered data callback goes on mutating the
transcript, so the superseded job is not silenced. -/
theorem sendMessage_never_releases :
    (∀ chatId content now job cl s,
        (sendMessageAgentSubmit chatId content now job cl s).cleanupsRun = s.cleanupsRun ∧
        (sendMessageAgentSubmit chatId content now job cl s).streamingCleanup = some cl) ∧
    exStateJ3.streamingCleanup = some (Cleanup.sseClose "j3") ∧
    submitJ4.streamingCleanup = some (Cleanup.sseClose "j4") ∧
    submitJ4.cleanupsRun = 0 ∧
    (sseData "c1" "t3" "part" " stale" submitJ4).2.chats ≠ submitJ4.chats := by
  refine ⟨fun _ _ _ _ _ _ => ⟨rfl, rfl⟩, rfl, rfl, rfl, by decide⟩

/-- The state after a late push-channel terminal frame for `j1` lands on the
poll-terminated state `pState`. -/
def lateTerminalState : State := sseTerminal "c1" "j1" "agent" "t3" lateTerminalFrame pState

/-- C1: both channels report a terminal state for job `j1` — the push channel
failed over to polling, the poll applied the terminal append (`"done"`), and a
late push terminal frame then arrives: the code applies a second terminal
transcript mutation, rewriting the final assistant message to `"done!"`, so
terminal mutations are not exactly-once per job id. -/
theorem duplicate_terminal_mutation :
    (lastMessageOf pState "c1").map Message.content = some "done" ∧
    lateTerminalState.chats ≠ pState.chats ∧
    (lastMessageOf lateTerminalState "c1").map Message.content = some "done!" := by decide

/-- The state after a stale push-channel fragment `"late"` for `j1` lands on
the poll-terminated state `pState`. -/
def staleFragmentState : State := (sseData "c1" "t4" "" "late" pState).2

/-- C2: after the fallback poll applied job `j1`'s terminal state (no job is
active any more: `currentJob = none`), a late push-channel fragment for `j1`
still mutates the transcript — the final assistant message's content is
rewritten to the stale accumulator `"late\n"` — so events that no longer match
the active job are not discarded. -/
theorem stale_fragment_mutates :
    pState.currentJob = none ∧
    staleFragmentState.chats ≠ pState.chats ∧
    (lastMessageOf staleFragmentState "c1").map Message.content = some "late\n" := by decide

end ChatStore



